import Mathlib

set_option maxRecDepth 4096

/-!
Verification development for the DragOnTower plugin (DragOnTower.py and
PrimeTowerMeshBuilder.py).  The Python source is shallowly embedded over ℚ
(the source works with Python floats; all the arithmetic in the claims is
exact, so ℚ is the faithful exact model).  Python's `x or default` idiom on
numeric reads (which substitutes the default for both `None` and `0`) is
modelled by `pyOr` on `Option ℚ`.
-/

/-- A 3-component vector (world coordinates: x, y vertical, z). -/
structure V3 where
  x : ℚ
  y : ℚ
  z : ℚ
deriving DecidableEq, Repr

/-- Machine profile: `machine_width`, `machine_depth`, `machine_center_is_zero`
as cached by `DragOnTower` (`self._machine_width` etc.). -/
structure Machine where
  width : ℚ
  depth : ℚ
  centerZero : Bool
deriving DecidableEq, Repr

/-- The configuration keys the plugin reads or dispatches on in
`_onSettingValueChanged`.  `supportEnable` stands for the extruder-usage
setting family (`support_enable`, `adhesion_type`, ... lines 427-438), which
are all handled identically (they trigger `_checkAndCreatePrimeTowerNode`). -/
inductive Key where
  | primeTowerSize
  | primeTowerPositionX
  | primeTowerPositionY
  | primeTowerBaseSize
  | primeTowerBaseHeight
  | primeTowerBaseCurveMagnitude
  | layerHeight
  | primeTowerEnable
  | machineWidth
  | machineDepth
  | machineCenterIsZero
  | supportEnable
deriving DecidableEq, Repr

/-- The global container stack's values for the keys the plugin reads.
`getProperty` may return `None`, modelled with `Option`.  `enable` and
`centerZero` are the boolean-valued properties. -/
structure Config where
  size : Option ℚ
  posX : Option ℚ
  posY : Option ℚ
  baseSize : Option ℚ
  baseHeight : Option ℚ
  baseCurve : Option ℚ
  layerH : Option ℚ
  mWidth : Option ℚ
  mDepth : Option ℚ
  enable : Bool
  centerZero : Bool
deriving DecidableEq, Repr

/-- Python's `value or default` on a numeric read: `None` and `0` both fall
back to the default. -/
def pyOr (v : Option ℚ) (d : ℚ) : ℚ :=
  match v with
  | none => d
  | some x => if x = 0 then d else x

/-- `tower_size = getProperty("prime_tower_size") or DEFAULT_TOWER_SIZE` (line 565). -/
def towerSizeOf (c : Config) : ℚ := pyOr c.size 10

/-- `base_size = getProperty("prime_tower_base_size") or tower_size` (line 566). -/
def baseSizeOf (c : Config) : ℚ := pyOr c.baseSize (towerSizeOf c)

/-- `base_height = getProperty("prime_tower_base_height") or 0.0` (line 567). -/
def baseHeightOf (c : Config) : ℚ := pyOr c.baseHeight 0

/-- `base_curve_magnitude = getProperty("prime_tower_base_curve_magnitude") or 4.0` (line 568). -/
def baseCurveOf (c : Config) : ℚ := pyOr c.baseCurve 4

/-- `layer_height = getProperty("layer_height") or 0.2` (line 569). -/
def layerHeightOf (c : Config) : ℚ := pyOr c.layerH (1/5)

/-- One sliceable candidate in the scene, as inspected by `_getMaxModelHeight`:
whether `callDecoration("isSliceable")` holds, whether `getMeshData()` is
non-null, and the bounding box's `maximum.y` (None when no bounding box). -/
structure SceneObj where
  sliceable : Bool
  hasMesh : Bool
  bboxMaxY : Option ℚ
deriving DecidableEq, Repr

/-- `_getMaxModelHeight` (lines 708-718): maximum over all sliceable, meshed
nodes of their bounding box's top, starting from 0. -/
def getMaxModelHeight (objs : List SceneObj) : ℚ :=
  objs.foldl (fun acc o =>
    if o.sliceable && o.hasMesh then
      match o.bboxMaxY with
      | some y => if acc < y then y else acc
      | none => acc
    else acc) 0

/-- The tower-height fallback in `_generateTowerMesh` (lines 572-574):
`if not tower_height or tower_height <= 10: tower_height = 20.0`
(`not 0.0` is true in Python, hence the explicit zero test). -/
def effectiveTowerHeight (mh : ℚ) : ℚ :=
  if mh = 0 ∨ mh ≤ 10 then 20 else mh

/-- Mesh parameters handed from `_generateTowerMesh` to
`PrimeTowerMeshBuilder.buildPrimeTowerMesh` (lines 577-584). -/
structure MeshParams where
  towerSize : ℚ
  towerHeight : ℚ
  baseSize : ℚ
  baseHeight : ℚ
  baseCurve : ℚ
  layerH : ℚ
deriving DecidableEq, Repr

/-- The parameter-gathering part of `_generateTowerMesh` (lines 561-574):
numeric reads with their fallbacks plus the tower-height floor. -/
def genParams (c : Config) (objs : List SceneObj) : MeshParams :=
  { towerSize := towerSizeOf c
    towerHeight := effectiveTowerHeight (getMaxModelHeight objs)
    baseSize := baseSizeOf c
    baseHeight := baseHeightOf c
    baseCurve := baseCurveOf c
    layerH := layerHeightOf c }

/-- Configuration position to world position of the node, from
`_updateNodePosition` (lines 622-635): `scene_x = setting_x`,
`scene_z = -setting_y`, shifted by half the machine size when the origin is a
corner, then the footprint radius is subtracted from both axes. -/
def configToScene (sx sy radius : ℚ) (m : Machine) : ℚ × ℚ :=
  let sceneX := sx
  let sceneZ := -sy
  let sceneX := if m.centerZero then sceneX else sceneX - m.width / 2
  let sceneZ := if m.centerZero then sceneZ else sceneZ + m.depth / 2
  (sceneX - radius, sceneZ - radius)

/-- World position of the node back to configuration position, from
`_updateSettingsFromNode` (lines 770-781): add the radius back to get the
corner, shift by half the machine size when the origin is a corner, and negate
z to get `setting_y`. -/
def sceneToConfig (px pz radius : ℚ) (m : Machine) : ℚ × ℚ :=
  let cornerX := px + radius
  let cornerZ := pz + radius
  let settingX := if m.centerZero then cornerX else cornerX + m.width / 2
  let settingZ := if m.centerZero then cornerZ else cornerZ - m.depth / 2
  (settingX, -settingZ)

/-- The transform constraint from `_onNodeTransformChanged` (lines 682-695):
y is forced to the cached build-plate rest height, x and z are clamped to the
build plate inset by the footprint radius. -/
def clampPos (p : V3) (r restY : ℚ) (m : Machine) : V3 :=
  let minX := -m.width / 2 + r
  let maxX := m.width / 2 - r
  let minZ := -m.depth / 2 + r
  let maxZ := m.depth / 2 - r
  { x := max minX (min p.x maxX), y := restY, z := max minZ (min p.z maxZ) }

/-- Configuration-space corner to world-space corner (the first half of
`configToScene`, before the radius subtraction; lines 626-631). -/
def toWorldCorner (cx cy : ℚ) (m : Machine) : ℚ × ℚ :=
  ((if m.centerZero then cx else cx - m.width / 2),
   (if m.centerZero then -cy else -cy + m.depth / 2))

/-- World-space footprint center determined by a configuration record
`(size, positionX, positionY)`: the world corner minus the radius on both
axes (this is how `_onToolOperationStopped` lines 362-371 derive the center). -/
def centerFromConfig (size cx cy : ℚ) (m : Machine) : ℚ × ℚ :=
  let w := toWorldCorner cx cy m
  (w.1 - size / 2, w.2 - size / 2)

/-- The corner-recomputation of `_onToolOperationStopped` (lines 362-384):
derive the original center from the stored settings, re-derive the corner for
the new size from that center, and convert back to configuration space. -/
def commitCorner (oS oX oY newSize : ℚ) (m : Machine) : ℚ × ℚ :=
  let cornerX := oX
  let cornerZ := -oY
  let cornerX := if m.centerZero then cornerX else cornerX - m.width / 2
  let cornerZ := if m.centerZero then cornerZ else cornerZ + m.depth / 2
  let originalRadius := oS / 2
  let centerX := cornerX - originalRadius
  let centerZ := cornerZ - originalRadius
  let newRadius := newSize / 2
  let newCornerX := centerX + newRadius
  let newCornerZ := centerZ + newRadius
  let newPosX := if m.centerZero then newCornerX else newCornerX + m.width / 2
  let newPosZ := if m.centerZero then newCornerZ else newCornerZ - m.depth / 2
  (newPosX, -newPosZ)

/-- `enabled_used_extruder_count` from `_checkAndCreatePrimeTowerNode`
(lines 458-463): the number of enabled stacks among the used extruders, or 0
when the extruder manager raises (`none`). -/
def enabledUsedCount (resolver : Option (List Bool)) : ℕ :=
  match resolver with
  | none => 0
  | some xs => (xs.filter id).length

/-- `should_show_tower = prime_tower_enabled and enabled_used_extruder_count >= MIN_EXTRUDERS_FOR_TOWER`
(line 465, with `MIN_EXTRUDERS_FOR_TOWER = 2`). -/
def shouldShowTower (enabled : Bool) (resolver : Option (List Bool)) : Bool :=
  enabled && decide (2 ≤ enabledUsedCount resolver)

/-- An all-absent configuration record (every numeric read returns `None`). -/
def emptyConfig : Config :=
  { size := none, posX := none, posY := none, baseSize := none,
    baseHeight := none, baseCurve := none, layerH := none,
    mWidth := none, mDepth := none, enable := false, centerZero := false }

/-! ## PrimeTowerMeshBuilder

The builder emits triangles whose vertices are either a cap center at some
height, or a point on a horizontal ring: `(r·cos(2πi/32), y, r·sin(2πi/32))`.
Since the angle step is fixed (`SEGMENTS = 32`) we embed a ring vertex
symbolically as its radius, height and segment index (the map to real
coordinates is injective on the data the claims are about), avoiding
non-computable trigonometric reals.  The source's `pow(base, magnitude)` with
float magnitude is embedded with a natural-number exponent (the configuration
value is 4.0; all claims use natural exponents). -/

/-- `PrimeTowerMeshBuilder.SEGMENTS = 32`. -/
def segments : ℕ := 32

/-- A symbolic mesh vertex: a cap center at height `y`, or the ring vertex
`(r·cos(2πi/32), y, r·sin(2πi/32))`. -/
inductive Pt where
  | center (y : ℚ)
  | ring (r y : ℚ) (i : ℕ)
deriving DecidableEq, Repr

/-- A triangle emitted via `addFaceByPoints`, vertices in call order. -/
structure Tri where
  a : Pt
  b : Pt
  c : Pt
deriving DecidableEq, Repr

/-- Ring vertex `i` (indices wrap modulo `SEGMENTS`, matching
`(i + 1) % SEGMENTS` in the source loops). -/
def ringPt (r y : ℚ) (i : ℕ) : Pt := Pt.ring r y (i % segments)

/-- `_buildSimpleCylinder` (lines 72-126): fan-triangulated bottom cap,
side quads split into two triangles, fan-triangulated top cap, all with 32
angular segments. -/
def simpleCylinder (radius height : ℚ) : List Tri :=
  ((List.range segments).map fun i =>
    ⟨Pt.center 0, ringPt radius 0 i, ringPt radius 0 (i + 1)⟩)
  ++ ((List.range segments).flatMap fun i =>
    [⟨ringPt radius 0 i, ringPt radius 0 (i + 1), ringPt radius height i⟩,
     ⟨ringPt radius height i, ringPt radius 0 (i + 1), ringPt radius height (i + 1)⟩])
  ++ ((List.range segments).map fun i =>
    ⟨Pt.center height, ringPt radius height i, ringPt radius height (i + 1)⟩)

/-- `num_base_layers = max(int(base_height / layer_height), 10)`
(lines 149-150; the Python `int` truncation on the positive quotient is
`Int.toNat ∘ Int.floor`). -/
def numBaseLayers (baseHeight layerH : ℚ) : ℕ :=
  max (⌊baseHeight / layerH⌋).toNat 10

/-- The intermediate base rings of `_buildTowerWithBase` (lines 164-181):
`for layer_idx in range(1, num_base_layers)`, one ring per index at height
`base_height · layer_idx / num_base_layers` with the power-curve radius
`tower_radius + (base_radius − tower_radius) · (1 − z_ratio) ^ curve`.
Each entry is the ring's `(height, radius)`. -/
def intermediateLayers (towerRadius baseRadius baseHeight : ℚ) (curve : ℕ)
    (n : ℕ) : List (ℚ × ℚ) :=
  (List.range (n - 1)).map fun j =>
    let layerIdx : ℕ := j + 1
    let zHeight := baseHeight * ((layerIdx : ℚ) / (n : ℚ))
    let zRatio := zHeight / baseHeight
    let brimRadiusFactor := (1 - zRatio) ^ curve
    let extraRadius := (baseRadius - towerRadius) * brimRadiusFactor
    (zHeight, towerRadius + extraRadius)

/-- The full `(height, radius)` ring sequence of `_buildTowerWithBase`
(lines 152-199): the base bottom ring at radius `base_radius`, the
intermediate power-curve rings, the taper-closing ring at `base_height`
with radius `tower_radius`, and the tower-top ring. -/
def towerWithBaseLayers (towerRadius towerHeight baseRadius baseHeight : ℚ)
    (curve : ℕ) (layerH : ℚ) : List (ℚ × ℚ) :=
  let n := numBaseLayers baseHeight layerH
  [(0, baseRadius)]
  ++ intermediateLayers towerRadius baseRadius baseHeight curve n
  ++ [(baseHeight, towerRadius), (towerHeight, towerRadius)]

/-- Side-wall triangles between two consecutive rings (lines 211-229). -/
def sideBand (curr next : ℚ × ℚ) : List Tri :=
  (List.range segments).flatMap fun i =>
    [⟨ringPt curr.2 curr.1 i, ringPt curr.2 curr.1 (i + 1), ringPt next.2 next.1 i⟩,
     ⟨ringPt next.2 next.1 i, ringPt curr.2 curr.1 (i + 1), ringPt next.2 next.1 (i + 1)⟩]

/-- `_buildTowerWithBase` (lines 128-243): bottom cap on the base ring, side
bands between every consecutive ring pair, top cap on the tower-top ring. -/
def towerWithBaseMesh (towerRadius towerHeight baseRadius baseHeight : ℚ)
    (curve : ℕ) (layerH : ℚ) : List Tri :=
  let layers := towerWithBaseLayers towerRadius towerHeight baseRadius baseHeight curve layerH
  ((List.range segments).map fun i =>
    ⟨Pt.center 0, ringPt baseRadius 0 i, ringPt baseRadius 0 (i + 1)⟩)
  ++ ((layers.zip layers.tail).flatMap fun pr => sideBand pr.1 pr.2)
  ++ ((List.range segments).map fun i =>
    ⟨Pt.center towerHeight, ringPt towerRadius towerHeight i, ringPt towerRadius towerHeight (i + 1)⟩)

/-- `PrimeTowerMeshBuilder.buildPrimeTowerMesh` (lines 23-66):
`base_radius = tower_radius + base_size if base_size > 0 else tower_radius`,
`has_base = base_size > 0 and base_height > 0`, dispatching to the
tower-with-base builder or the simple cylinder. -/
def buildPrimeTowerMesh (towerSize towerHeight baseSize baseHeight : ℚ)
    (curve : ℕ) (layerH : ℚ) : List Tri :=
  let towerRadius := towerSize / 2
  let baseRadius := if 0 < baseSize then towerRadius + baseSize else towerRadius
  if 0 < baseSize ∧ 0 < baseHeight then
    towerWithBaseMesh towerRadius towerHeight baseRadius baseHeight curve layerH
  else
    simpleCylinder towerRadius towerHeight

/-! ## The event-driven synchronizer

`DragOnTower`'s handlers are mutually re-entrant through the host's
synchronous signals: `setProperty` fires `propertyChanged`
(`_onSettingValueChanged`), `setPosition`/`setScale`/`setOrientation` fire
`transformationChanged` (`_onNodeTransformChanged`), and scene mutations fire
`sceneChanged` (`_onSceneChanged` then `_onSceneObjectsChanged`, in connection
order).  We model the whole handler network as one fuel-indexed interpreter
`run`; fuel only truncates signal dispatch, never the direct state mutation of
the call itself.  The global container stack is taken as present (the handlers
are only connected while it is).  Signal sources are the tower node itself:
these are exactly the dispatches the re-entrancy claims are about. -/

/-- The visual tower node: world position, scale, orientation-is-identity,
and the parameters of its current mesh. -/
structure NodeState where
  pos : V3
  scale : V3
  orientIdentity : Bool
  meshParams : MeshParams
deriving DecidableEq, Repr

/-- The outer radius of the generated mesh: base radius when a base exists,
tower radius otherwise (ring x ranges over `r·cos(2πi/32)`, which attains
±r since 32 is even, so the mesh bounding width/depth is exactly `2r`). -/
def maxMeshRadius (p : MeshParams) : ℚ :=
  if 0 < p.baseSize ∧ 0 < p.baseHeight then p.towerSize / 2 + p.baseSize
  else p.towerSize / 2

/-- `node.getBoundingBox()`: width and depth of the scaled mesh.  The node
always carries a mesh in this model, so a box is always available. -/
def getBoundingBox (nd : NodeState) : Option (ℚ × ℚ) :=
  some (2 * maxMeshRadius nd.meshParams * nd.scale.x,
        2 * maxMeshRadius nd.meshParams * nd.scale.z)

/-- The plugin state: the `DragOnTower` instance fields, the configuration
store, the host facts it consults (scene objects, extruder resolver, build
volume, selection, gesture/tool state) and the log of configuration writes. -/
structure St where
  flag : Bool
  creating : Bool
  node : Option NodeState
  nodeAttached : Bool
  config : Config
  machineWidth : ℚ
  machineDepth : ℚ
  machineCenterZero : Bool
  meshDiameter : ℚ
  origBaseSize : ℚ
  origBaseHeight : ℚ
  origBaseCurve : ℚ
  origMaxHeight : ℚ
  buildPlateY : ℚ
  restY : ℚ
  pendingFlag : Bool
  pendingScaleValue : ℚ
  pendingOriginal : Option (Option ℚ × Option ℚ × Option ℚ)
  scaleToolActive : Bool
  extruders : Option (List Bool)
  sceneObjs : List SceneObj
  volumeHasErrors : Bool
  collisionDetected : Bool
  selected : Bool
  wasSelected : Bool
  writes : List (Key × ℚ)
deriving DecidableEq, Repr

/-- The machine profile as cached by the plugin instance. -/
def machineOf (s : St) : Machine :=
  { width := s.machineWidth, depth := s.machineDepth, centerZero := s.machineCenterZero }

/-- The store half of `setProperty(key, "value", v)`. -/
def writeConfig (k : Key) (v : ℚ) (c : Config) : Config :=
  match k with
  | .primeTowerSize => { c with size := some v }
  | .primeTowerPositionX => { c with posX := some v }
  | .primeTowerPositionY => { c with posY := some v }
  | .primeTowerBaseSize => { c with baseSize := some v }
  | .primeTowerBaseHeight => { c with baseHeight := some v }
  | .primeTowerBaseCurveMagnitude => { c with baseCurve := some v }
  | .layerHeight => { c with layerH := some v }
  | .primeTowerEnable => { c with enable := decide (v ≠ 0) }
  | .machineWidth => { c with mWidth := some v }
  | .machineDepth => { c with mDepth := some v }
  | .machineCenterIsZero => { c with centerZero := decide (v ≠ 0) }
  | .supportEnable => c

/-- Apply a configuration write to the store and append it to the write log. -/
def recordWrite (k : Key) (v : ℚ) (s : St) : St :=
  { s with config := writeConfig k v s.config, writes := s.writes ++ [(k, v)] }

/-- The `mesh_geometry_settings` list of `_onSettingValueChanged` (lines 413-419). -/
def geomKey (k : Key) : Bool :=
  match k with
  | .primeTowerSize | .primeTowerBaseSize | .primeTowerBaseHeight
  | .primeTowerBaseCurveMagnitude | .layerHeight => true
  | _ => false

/-- The `position_settings` list (lines 422-425). -/
def posKey (k : Key) : Bool :=
  match k with
  | .primeTowerPositionX | .primeTowerPositionY => true
  | _ => false

/-- Keys whose `_onSettingValueChanged` dispatch never reaches
`_checkAndCreatePrimeTowerNode` (everything except the enable flag and the
extruder-usage settings). -/
def safeKey (k : Key) : Bool :=
  match k with
  | .primeTowerEnable | .supportEnable => false
  | _ => true

/-- The synchronous calls of the handler network.  `setProp`, `setPos` and
`setScale` are the mutations that fire signals; the rest are the handlers and
internal methods of `DragOnTower`. -/
inductive Call where
  | setProp (k : Key) (v : ℚ)
  | setPos (v : V3)
  | setScale (v : V3)
  | settingChanged (k : Key)
  | sceneChanged
  | sceneObjectsChanged
  | transformChanged
  | selectionChanged
  | checkCreate
  | createNode
  | removeNode
  | regenerateMesh
  | updateNodePosition
  | updateSettingsFromNode
  | checkCollision
  | toolOperationStopped
deriving DecidableEq, Repr

/-- Release (or set) the re-entrancy flag; the `finally` blocks of the
guarded methods.  (A named function so that states built from dispatch
results stay shared rather than copied field-by-field.) -/
def setFlag (b : Bool) (s : St) : St := { s with flag := b }

/-- End of `_createPrimeTowerNode`: release both the re-entrancy flag and the
creating flag (lines 500-502). -/
def endCreate (s : St) : St := { s with flag := false, creating := false }

/-- `removeChild`: the node loses its parent (line 517). -/
def detachNode (s : St) : St := { s with nodeAttached := false }

/-- End of `_removePrimeTowerNode`: drop the node reference and the selection
cache (lines 518-519). -/
def dropNodeRef (s : St) : St := { s with node := none, wasSelected := false }

/-- `self._build_plate_y = node.getPosition().y` after the gravity operation
(line 639): the node is resting at `restY` at that point. -/
def cacheBuildPlateY (s : St) : St := { s with buildPlateY := s.restY }

/-- The synchronous interpreter of the handler network.  Fuel bounds the
dispatch depth: at fuel 0 a mutation is applied without firing its signal and
a handler does nothing.  Each case is the corresponding method of
`DragOnTower` (line references in the cases). -/
def run : ℕ → Call → St → St
  -- mutations at exhausted fuel: apply, drop the signal
  | 0, .setProp k v, s => recordWrite k v s
  | 0, .setPos v, s => { s with node := s.node.map fun nd => { nd with pos := v } }
  | 0, .setScale v, s => { s with node := s.node.map fun nd => { nd with scale := v } }
  | 0, _, s => s
  -- stack.setProperty: write, then propertyChanged → _onSettingValueChanged
  | n + 1, .setProp k v, s => run n (.settingChanged k) (recordWrite k v s)
  -- node.setPosition: move, then transformationChanged → _onNodeTransformChanged
  | n + 1, .setPos v, s =>
      run n .transformChanged { s with node := s.node.map fun nd => { nd with pos := v } }
  -- node.setScale: scale, then transformationChanged
  | n + 1, .setScale v, s =>
      run n .transformChanged { s with node := s.node.map fun nd => { nd with scale := v } }
  -- _onSettingValueChanged (lines 400-449); property_name = "value" always here
  | n + 1, .settingChanged k, s =>
      let s :=
        match k with
        | .machineWidth => { s with machineWidth := pyOr s.config.mWidth 200 }
        | .machineDepth => { s with machineDepth := pyOr s.config.mDepth 200 }
        | .machineCenterIsZero => { s with machineCenterZero := s.config.centerZero }
        | _ => s
      if k = .primeTowerEnable then run n .checkCreate s
      else if geomKey k then (if s.node.isSome then run n .regenerateMesh s else s)
      else if posKey k then (if s.node.isSome then run n .updateNodePosition s else s)
      else if k = .supportEnable then run n .checkCreate s
      else s
  -- _onSceneChanged (lines 266-276); the source of our dispatches is the tower
  | n + 1, .sceneChanged, s =>
      if s.node.isNone || s.flag then s
      else if !s.nodeAttached then { s with node := none }
      else run n .updateSettingsFromNode s
  -- _onSceneObjectsChanged (lines 278-310); source = the (non-sliceable) tower
  | n + 1, .sceneObjectsChanged, s =>
      if s.creating || s.flag then s
      else
        let s := if s.node.isSome && !s.nodeAttached then { s with node := none } else s
        if !s.nodeAttached then run n .checkCreate s
        else if s.node.isNone then run n .checkCreate s
        else s
  -- _onNodeTransformChanged (lines 667-706)
  | n + 1, .transformChanged, s =>
      match s.node with
      | none => s
      | some nd =>
        if s.flag then s
        else
          let s1 := { s with flag := true }
          let s2 :=
            if nd.orientIdentity then s1
            else run n .transformChanged
              { s1 with node := s1.node.map fun x => { x with orientIdentity := true } }
          let r :=
            match getBoundingBox nd with
            | some wd => max wd.1 wd.2 / 2
            | none => 5
          let cp := clampPos nd.pos r s.buildPlateY (machineOf s)
          let s3 :=
            if 1/1000 < |nd.pos.y - cp.y| ∨ 1/1000 < |nd.pos.x - cp.x| ∨
               1/1000 < |nd.pos.z - cp.z| then run n (.setPos cp) s2 else s2
          let s4 := run n .updateSettingsFromNode s3
          let s5 := run n .checkCollision s4
          setFlag false s5
  -- _onSelectionChanged (lines 193-204); tool toggling has no modelled state
  | _ + 1, .selectionChanged, s =>
      match s.node with
      | none => s
      | some _ => if s.selected = s.wasSelected then s else { s with wasSelected := s.selected }
  -- _checkAndCreatePrimeTowerNode (lines 451-470)
  | n + 1, .checkCreate, s =>
      let show_ := shouldShowTower s.config.enable s.extruders
      if show_ && s.node.isNone then run n .createNode s
      else if !show_ && s.node.isSome then run n .removeNode s
      else s
  -- _createPrimeTowerNode (lines 472-502); mesh generation always succeeds here
  | n + 1, .createNode, s =>
      let s := { s with flag := true, creating := true }
      let mp := genParams s.config s.sceneObjs
      let s := { s with
        meshDiameter := mp.towerSize, origBaseSize := mp.baseSize,
        origBaseHeight := mp.baseHeight, origBaseCurve := mp.baseCurve,
        origMaxHeight := mp.towerHeight,
        node := some { pos := ⟨0, 0, 0⟩, scale := ⟨1, 1, 1⟩,
                       orientIdentity := true, meshParams := mp },
        nodeAttached := true }
      let s := run n .sceneChanged s          -- addChild fires sceneChanged
      let s := run n .sceneObjectsChanged s
      let s := run n .updateNodePosition s
      endCreate s
  -- _removePrimeTowerNode (lines 504-519)
  | n + 1, .removeNode, s =>
      match s.node with
      | none => s
      | some _ =>
        let s := if s.selected then run n .selectionChanged { s with selected := false } else s
        let s := detachNode s
        let s := run n .sceneChanged s        -- removeChild fires sceneChanged
        let s := run n .sceneObjectsChanged s
        dropNodeRef s
  -- _regenerateMesh (lines 596-612)
  | n + 1, .regenerateMesh, s =>
      match s.node with
      | none => s
      | some _ =>
        let s := { s with flag := true }
        let mp := genParams s.config s.sceneObjs
        let s := { s with
          meshDiameter := mp.towerSize, origBaseSize := mp.baseSize,
          origBaseHeight := mp.baseHeight, origBaseCurve := mp.baseCurve,
          origMaxHeight := mp.towerHeight,
          node := s.node.map fun nd => { nd with meshParams := mp } }
        let s := run n .sceneChanged s        -- setMeshData fires sceneChanged
        let s := run n .sceneObjectsChanged s
        let s := run n .updateNodePosition s
        setFlag false s
  -- _updateNodePosition (lines 614-646)
  | n + 1, .updateNodePosition, s =>
      match s.node with
      | none => s
      | some nd =>
        let s := { s with flag := true }
        match s.config.posX, s.config.posY with
        | some px, some py =>
          let towerSize := pyOr s.config.size 10
          let target := configToScene px py (towerSize / 2) (machineOf s)
          let s := run n (.setPos ⟨nd.pos.x, s.restY, nd.pos.z⟩) s  -- gravity op
          let s := cacheBuildPlateY s
          let s := run n (.setPos ⟨target.1, s.buildPlateY, target.2⟩) s
          let s := run n .checkCollision s
          setFlag false s
        | _, _ => { s with flag := false }    -- a None position raises; finally releases
  -- _updateSettingsFromNode (lines 720-787)
  | n + 1, .updateSettingsFromNode, s =>
      match s.node with
      | none => s
      | some nd =>
        if s.flag then s
        else
          let s := { s with flag := true }
          let sf := max nd.scale.x nd.scale.z
          if 1/100 < |sf - 1| then
            if s.scaleToolActive then
              let s :=
                if s.pendingOriginal.isNone then
                  { s with pendingOriginal := some (s.config.size, s.config.posX, s.config.posY) }
                else s
              { s with pendingFlag := true, pendingScaleValue := sf, flag := false }
            else
              let s := run n (.setProp .primeTowerSize (s.meshDiameter * sf)) s
              let s := run n (.setScale ⟨1, 1, 1⟩) s
              setFlag false s
          else if s.scaleToolActive then { s with flag := false }
          else
            let cfg := sceneToConfig nd.pos.x nd.pos.z (s.meshDiameter / 2) (machineOf s)
            let s := run n (.setProp .primeTowerPositionX cfg.1) s
            let s := run n (.setProp .primeTowerPositionY cfg.2) s
            setFlag false s
  -- _checkTowerCollision (lines 648-665)
  | n + 1, .checkCollision, s =>
      match s.node with
      | none => s
      | some _ =>
        if s.volumeHasErrors != s.collisionDetected then
          run n .transformChanged { s with collisionDetected := s.volumeHasErrors }
        else s
  -- _onToolOperationStopped (lines 329-398)
  | n + 1, .toolOperationStopped, s =>
      match s.node with
      | none => s
      | some nd =>
        if !s.pendingFlag then s
        else
          let stored := s.pendingOriginal
          let s := { s with pendingFlag := false, pendingOriginal := none }
          match getBoundingBox nd, stored with
          | none, _ => s
          | some _, none => s
          | some wd, some (oSopt, oXopt, oYopt) =>
            match oSopt, oXopt, oYopt with
            | some oS, some oX, some oY =>
              let baseSize := pyOr s.config.baseSize oS
              let newTowerSize := max wd.1 wd.2 - 2 * baseSize
              if newTowerSize ≤ 0 then s
              else
                let nc := commitCorner oS oX oY newTowerSize (machineOf s)
                let s := { s with flag := true }
                let s := run n (.setProp .primeTowerSize newTowerSize) s
                let s := run n (.setProp .primeTowerPositionX nc.1) s
                let s := run n (.setProp .primeTowerPositionY nc.2) s
                let s := setFlag false s
                run n (.setScale ⟨1, 1, 1⟩) s
            | _, _, _ => { s with flag := false }  -- arithmetic on None raises; except clears the flag

/-- Precondition under which a call adds no configuration writes beyond its
own (and leaves the pending transaction alone): the re-entrancy flag for the
guarded handlers, no condition for the methods that set the flag themselves,
and a safe key for the property dispatches. -/
abbrev KPre (c : Call) (s : St) : Prop :=
  match c with
  | .setProp k _ => s.flag = true ∨ safeKey k = true
  | .settingChanged k => s.flag = true ∨ safeKey k = true
  | .checkCreate => s.flag = true
  | .removeNode => s.flag = true
  | .sceneChanged => s.flag = true
  | .sceneObjectsChanged => s.flag = true ∨ s.creating = true
  | .updateSettingsFromNode => s.flag = true
  | .toolOperationStopped => False
  | _ => True

/-- Precondition under which a call keeps the node present with its scale
unchanged. -/
abbrev NPre (c : Call) (s : St) : Prop :=
  match c with
  | .setProp k _ => safeKey k = true
  | .settingChanged k => safeKey k = true
  | .setPos _ => True
  | .transformChanged => True
  | .checkCollision => True
  | .regenerateMesh => True
  | .updateNodePosition => True
  | .selectionChanged => True
  | .sceneChanged => s.flag = true
  | .sceneObjectsChanged => s.flag = true ∨ s.creating = true
  | .updateSettingsFromNode => s.flag = true
  | _ => False

/-- The configuration writes a call itself performs. -/
def writeDelta (c : Call) : List (Key × ℚ) :=
  match c with
  | .setProp k v => [(k, v)]
  | _ => []

/-- Write-log and pending-transaction part of the dispatch invariant. -/
abbrev keepsW (c : Call) (s t : St) : Prop :=
  t.writes = s.writes ++ writeDelta c ∧ t.pendingFlag = s.pendingFlag ∧
  t.pendingOriginal = s.pendingOriginal

/-- Node-and-scale preservation part of the dispatch invariant: the node's
presence and scale are unchanged. -/
abbrev keepsScale (s t : St) : Prop :=
  t.node.map NodeState.scale = s.node.map NodeState.scale

/-- A concrete plugin state with the re-entrancy flag held, a tower node in
the scene, and a changed `prime_tower_size` in the store: used to exercise
the configuration-change handler under the flag. -/
def flaggedState : St :=
  { flag := true, creating := false,
    node := some { pos := ⟨0, 0, 0⟩, scale := ⟨1, 1, 1⟩, orientIdentity := true,
                   meshParams := ⟨10, 20, 0, 0, 4, 1/5⟩ },
    nodeAttached := true,
    config := { size := some 12, posX := some 50, posY := some 50, baseSize := none,
                baseHeight := none, baseCurve := none, layerH := none,
                mWidth := none, mDepth := none, enable := true, centerZero := false },
    machineWidth := 200, machineDepth := 200, machineCenterZero := false,
    meshDiameter := 10, origBaseSize := 10, origBaseHeight := 0, origBaseCurve := 4,
    origMaxHeight := 20, buildPlateY := 0, restY := 0,
    pendingFlag := false, pendingScaleValue := 1, pendingOriginal := none,
    scaleToolActive := false, extruders := some [true, true], sceneObjs := [],
    volumeHasErrors := false, collisionDetected := false,
    selected := false, wasSelected := false, writes := [] }

/-- The scenario-C node: tower diameter 10 with a 2 mm base margin and 1 mm
base height (outer mesh radius 7), scaled by 9/7 on x and z, so the bounding
footprint is 18. -/
def pendingNode : NodeState :=
  { pos := ⟨5, 0, 5⟩, scale := ⟨9/7, 1, 9/7⟩, orientIdentity := true,
    meshParams := ⟨10, 20, 2, 1, 4, 1/5⟩ }

/-- The scenario-C plugin state: a pending scale transaction storing
`(originalSize, originalPositionX, originalPositionY) = (10, 110, 90)`,
configured base margin 2, machine 200×200 with a corner origin. -/
def pendingState : St :=
  { flag := false, creating := false,
    node := some pendingNode,
    nodeAttached := true,
    config := { size := some 10, posX := some 110, posY := some 90, baseSize := some 2,
                baseHeight := some 1, baseCurve := some 4, layerH := none,
                mWidth := none, mDepth := none, enable := true, centerZero := false },
    machineWidth := 200, machineDepth := 200, machineCenterZero := false,
    meshDiameter := 10, origBaseSize := 2, origBaseHeight := 1, origBaseCurve := 4,
    origMaxHeight := 20, buildPlateY := 0, restY := 0,
    pendingFlag := true, pendingScaleValue := 9/7,
    pendingOriginal := some (some 10, some 110, some 90),
    scaleToolActive := false, extruders := some [true, true], sceneObjs := [],
    volumeHasErrors := false, collisionDetected := false,
    selected := false, wasSelected := false, writes := [] }

/-- The scenario-C plugin state with a configured base margin of 0: the
`or original_size` fallback of line 354 then substitutes the original tower
size for the margin. -/
def zeroMarginPendingState : St :=
  { pendingState with
    config := { pendingState.config with baseSize := some 0 } }

/-- A node scaled only along y (scale (1, 5, 1)). -/
def yScaledNode : NodeState :=
  { pos := ⟨-10, 0, -10⟩, scale := ⟨1, 5, 1⟩, orientIdentity := true,
    meshParams := ⟨10, 20, 0, 0, 4, 1/5⟩ }

/-- A plugin state whose node is scaled only along y, with the flag clear and
no gesture active: the transform-feedback pass runs its position path. -/
def yScaledState : St :=
  { flaggedState with flag := false, node := some yScaledNode }

/-- Helper: one clamp to `[lo, hi]` via `max lo (min x hi)` is idempotent,
also when `hi < lo` (then both applications yield `lo`). -/
theorem clamp1_idem (lo hi x : ℚ) :
    max lo (min (max lo (min x hi)) hi) = max lo (min x hi) := by
  rcases le_total x hi with h1 | h1 <;> rcases le_total lo x with h2 | h2 <;>
    rcases le_total lo hi with h3 | h3 <;>
    simp [max_def, min_def] <;> split_ifs <;> linarith

/-- C4. Coordinate round-trip: converting a configuration position to world
space (including the corner→center radius adjustment) and back reproduces the
configuration position exactly, for every machine profile and radius.  Exact
equality over ℚ in particular implies the claimed 1e-9 tolerance. -/
theorem coordinate_roundtrip (x y r : ℚ) (m : Machine) :
    sceneToConfig (configToScene x y r m).1 (configToScene x y r m).2 r m = (x, y) := by
  rcases m with ⟨w, d, cz⟩
  cases cz
  · simp only [configToScene, sceneToConfig, Bool.false_eq_true, if_false, Prod.mk.injEq]
    constructor <;> ring
  · simp [configToScene, sceneToConfig]

/-- C5. The transform-constraint clamp forces y to the cached rest height
unconditionally, keeps x and z inside the inset build plate whenever the inset
interval is nonempty, and is idempotent. -/
theorem clamp_idempotent (p : V3) (r restY : ℚ) (m : Machine) :
    (clampPos p r restY m).y = restY ∧
    (-m.width / 2 + r ≤ m.width / 2 - r →
      -m.width / 2 + r ≤ (clampPos p r restY m).x ∧
      (clampPos p r restY m).x ≤ m.width / 2 - r) ∧
    (-m.depth / 2 + r ≤ m.depth / 2 - r →
      -m.depth / 2 + r ≤ (clampPos p r restY m).z ∧
      (clampPos p r restY m).z ≤ m.depth / 2 - r) ∧
    clampPos (clampPos p r restY m) r restY m = clampPos p r restY m := by
  refine ⟨rfl, ?_, ?_, ?_⟩
  · intro h
    constructor
    · exact le_max_left _ _
    · simp only [clampPos]
      rcases le_total p.x (m.width / 2 - r) with h1 | h1 <;>
        simp [min_def, max_def] <;> split_ifs <;> linarith
  · intro h
    constructor
    · exact le_max_left _ _
    · simp only [clampPos]
      rcases le_total p.z (m.depth / 2 - r) with h1 | h1 <;>
        simp [min_def, max_def] <;> split_ifs <;> linarith
  · simp only [clampPos, V3.mk.injEq]
    exact ⟨clamp1_idem _ _ _, trivial, clamp1_idem _ _ _⟩

/-- C5 witness: the clamp theorem at a concrete input (machine 200×200,
radius 5, position (150, 7, -320), rest height 3). -/
theorem clamp_idempotent_witness :
    (clampPos ⟨150, 7, -320⟩ 5 3 ⟨200, 200, false⟩).y = 3 ∧
    clampPos (clampPos ⟨150, 7, -320⟩ 5 3 ⟨200, 200, false⟩) 5 3 ⟨200, 200, false⟩ =
      clampPos ⟨150, 7, -320⟩ 5 3 ⟨200, 200, false⟩ := by
  have h := clamp_idempotent ⟨150, 7, -320⟩ 5 3 ⟨200, 200, false⟩
  exact ⟨h.1, h.2.2.2⟩

/-- C6. Visibility gate: the tower is shown iff the prime-tower-enabled flag
is set and at least two enabled, in-use extruders exist; a count of 0 or 1
hides it regardless of the flag, and a raising resolver (`none`) is treated as
zero extruders, so the tower is hidden instead of the error propagating. -/
theorem visibility_gate :
    (∀ (e : Bool) (r : Option (List Bool)),
        shouldShowTower e r = true ↔ (e = true ∧ 2 ≤ enabledUsedCount r)) ∧
    (∀ (e : Bool) (r : Option (List Bool)),
        enabledUsedCount r ≤ 1 → shouldShowTower e r = false) ∧
    (∀ e : Bool, shouldShowTower e none = false) ∧
    enabledUsedCount none = 0 := by
  refine ⟨?_, ?_, ?_, rfl⟩
  · intro e r
    simp [shouldShowTower]
  · intro e r h
    simp [shouldShowTower]
    intro _
    omega
  · intro e
    simp [shouldShowTower, enabledUsedCount]

/-- C6 witness: gate evaluated where the resolver reports a single enabled
used extruder while the feature flag is on, and where the resolver raises. -/
theorem visibility_gate_witness :
    enabledUsedCount (some [true, false]) ≤ 1 ∧
    shouldShowTower true (some [true, false]) = false ∧
    shouldShowTower true none = false := by
  refine ⟨by decide, ?_, ?_⟩
  · exact visibility_gate.2.1 true (some [true, false]) (by decide)
  · exact visibility_gate.2.2.1 true

/-- C7 counterexample: with every property absent, the code's fallback for the
base margin is the tower size (10, not 0: `or tower_size`, line 566) and the
fallback curve exponent is 4 (not 0: `or 4.0`, line 568), contradicting the
claimed defaults. -/
theorem generation_defaults_counterexample :
    baseSizeOf emptyConfig = 10 ∧ baseSizeOf emptyConfig ≠ 0 ∧
    baseCurveOf emptyConfig = 4 ∧ baseCurveOf emptyConfig ≠ 0 := by
  refine ⟨rfl, by decide, rfl, by decide⟩

/-- C7 amended: for every configuration property read during mesh generation,
an absent (None) value falls back to: tower size 10.0, base margin equal to
the tower size (so the base radius defaults to the tower radius plus the tower
size, not to the tower radius), base height 0, base curve exponent 4.0, layer
height 0.2. -/
theorem generation_defaults (c : Config) :
    (c.size = none → towerSizeOf c = 10) ∧
    (c.baseSize = none → baseSizeOf c = towerSizeOf c) ∧
    (c.baseHeight = none → baseHeightOf c = 0) ∧
    (c.baseCurve = none → baseCurveOf c = 4) ∧
    (c.layerH = none → layerHeightOf c = 1/5) := by
  refine ⟨?_, ?_, ?_, ?_, ?_⟩ <;> intro h <;>
    simp [towerSizeOf, baseSizeOf, baseHeightOf, baseCurveOf, layerHeightOf, pyOr, h]

/-- C7 witness: the amended defaults evaluated on the all-absent configuration. -/
theorem generation_defaults_witness :
    towerSizeOf emptyConfig = 10 ∧ baseSizeOf emptyConfig = towerSizeOf emptyConfig ∧
    baseHeightOf emptyConfig = 0 ∧ baseCurveOf emptyConfig = 4 ∧
    layerHeightOf emptyConfig = 1/5 := by
  have h := generation_defaults emptyConfig
  exact ⟨h.1 rfl, h.2.1 rfl, h.2.2.1 rfl, h.2.2.2.1 rfl, h.2.2.2.2 rfl⟩

/-- C9. Implicit tower-height floor: whenever the maximum bounding-box height
over the sliceable scene objects is at most 10 (including the empty scene,
where it is 0), the mesh is generated with tower height exactly 20. -/
theorem tower_height_floor (objs : List SceneObj)
    (h : getMaxModelHeight objs ≤ 10) :
    effectiveTowerHeight (getMaxModelHeight objs) = 20 ∧
    getMaxModelHeight [] = 0 ∧
    (∀ (c : Config) (os : List SceneObj),
      (genParams c os).towerHeight = effectiveTowerHeight (getMaxModelHeight os)) := by
  refine ⟨?_, rfl, fun c os => rfl⟩
  simp [effectiveTowerHeight, h]

/-- C9 witness: the floor applied to a scene whose tallest sliceable object
tops out at 7, and to the empty scene. -/
theorem tower_height_floor_witness :
    getMaxModelHeight [⟨true, true, some 7⟩] ≤ 10 ∧
    effectiveTowerHeight (getMaxModelHeight [⟨true, true, some 7⟩]) = 20 := by
  refine ⟨by decide, (tower_height_floor [⟨true, true, some 7⟩] (by decide)).1⟩

/-- Helper: `numBaseLayers` is always at least 10 (the smoothness floor). -/
theorem numBaseLayers_ge_ten (bh lh : ℚ) : 10 ≤ numBaseLayers bh lh :=
  Nat.le_max_right _ 10

/-- Helper: every entry of `intermediateLayers` has height strictly between 0
and the base height, and its radius is the power-curve blend of the claim. -/
theorem intermediateLayers_mem (tr br bh : ℚ) (curve n : ℕ)
    (hbh : 0 < bh) (hn : 10 ≤ n) (p : ℚ × ℚ)
    (hp : p ∈ intermediateLayers tr br bh curve n) :
    0 < p.1 ∧ p.1 < bh ∧ p.2 = tr + (br - tr) * (1 - p.1 / bh) ^ curve := by
  simp only [intermediateLayers, List.mem_map, List.mem_range] at hp
  obtain ⟨j, hj, rfl⟩ := hp
  have hnq : (0 : ℚ) < (n : ℚ) := by
    have : 0 < n := lt_of_lt_of_le (by norm_num) hn
    exact_mod_cast this
  have hjq : (0 : ℚ) < ((j + 1 : ℕ) : ℚ) := by positivity
  have hratio : ((j + 1 : ℕ) : ℚ) / (n : ℚ) < 1 := by
    rw [div_lt_one hnq]
    have : j + 1 < n := by omega
    exact_mod_cast this
  refine ⟨?_, ?_, rfl⟩
  · exact mul_pos hbh (div_pos hjq hnq)
  · calc bh * (((j + 1 : ℕ) : ℚ) / (n : ℚ)) < bh * 1 :=
          mul_lt_mul_of_pos_left hratio hbh
      _ = bh := mul_one bh

/-- C3 counterexample: for base margin 5, base height 2, curve exponent 4 and
layer height 0.2 the code produces `max(⌊2/0.2⌋, 10) = 10` for
`num_base_layers` but only `range(1, 10)`, i.e. 9 intermediate rings — the
claimed count of 10 intermediate layers is wrong. -/
theorem base_layer_count_counterexample :
    numBaseLayers 2 (1/5) = 10 ∧
    (intermediateLayers 5 10 2 4 (numBaseLayers 2 (1/5))).length = 9 ∧
    (intermediateLayers 5 10 2 4 (numBaseLayers 2 (1/5))).length ≠ 10 := by
  have hfl : ⌊(2 : ℚ) / (1/5)⌋ = 10 := by norm_num
  have hn : numBaseLayers 2 (1/5) = 10 := by
    rw [numBaseLayers, hfl]
    rfl
  refine ⟨hn, ?_, ?_⟩ <;> rw [hn] <;> simp [intermediateLayers]

/-- C3 amended: in the tower-with-base path the builder generates exactly
K − 1 intermediate vertex rings strictly between z = 0 and z = baseHeight,
where K = max(⌊baseHeight / layerHeight⌋, 10) (`range(1, K)`), and the
intermediate ring at height h with t = h / baseHeight has radius
towerRadius + (baseRadius − towerRadius) · (1 − t)^curveExponent; in
particular for base margin 5, base height 2, curveExponent 4 and layerHeight
0.2 there are 9 intermediate layers and the radius at t = 0.5 is
towerRadius + 0.3125. -/
theorem base_layer_rings (tr th br bh lh : ℚ) (curve : ℕ)
    (hbh : 0 < bh) (hbt : bh < th) :
    (intermediateLayers tr br bh curve (numBaseLayers bh lh)).length =
      numBaseLayers bh lh - 1 ∧
    (towerWithBaseLayers tr th br bh curve lh).countP
        (fun p => decide (0 < p.1 ∧ p.1 < bh)) = numBaseLayers bh lh - 1 ∧
    (∀ p ∈ intermediateLayers tr br bh curve (numBaseLayers bh lh),
        0 < p.1 ∧ p.1 < bh ∧ p.2 = tr + (br - tr) * (1 - p.1 / bh) ^ curve) ∧
    (∀ p ∈ intermediateLayers tr (tr + 5) 2 4 (numBaseLayers 2 (1/5)),
        p.1 = 1 → p.2 = tr + 5/16) := by
  have hmem := intermediateLayers_mem tr br bh curve (numBaseLayers bh lh) hbh
    (numBaseLayers_ge_ten bh lh)
  refine ⟨?_, ?_, fun p hp => hmem p hp, ?_⟩
  · simp [intermediateLayers]
  · have hth : (0 : ℚ) < th := lt_trans hbh hbt
    simp only [towerWithBaseLayers, List.countP_append]
    have h1 : List.countP (fun p => decide (0 < p.1 ∧ p.1 < bh))
        [((0 : ℚ), br)] = 0 := by simp
    have h2 : List.countP (fun p => decide (0 < p.1 ∧ p.1 < bh))
        [(bh, tr), (th, tr)] = 0 := by
      simp only [List.countP_cons, List.countP_nil]
      have : ¬ (0 < bh ∧ bh < bh) := by intro h; exact lt_irrefl bh h.2
      have h2 : ¬ (0 < th ∧ th < bh) := by intro h; linarith [h.2]
      simp [this, h2]
    have h3 : List.countP (fun p => decide (0 < p.1 ∧ p.1 < bh))
        (intermediateLayers tr br bh curve (numBaseLayers bh lh)) =
        (intermediateLayers tr br bh curve (numBaseLayers bh lh)).length := by
      rw [List.countP_eq_length]
      intro p hp
      have := hmem p hp
      simp [this.1, this.2.1]
    rw [h1, h2, h3]
    simp [intermediateLayers]
  · intro p hp h1
    have := intermediateLayers_mem tr (tr + 5) 2 4 (numBaseLayers 2 (1/5))
      (by norm_num) (numBaseLayers_ge_ten 2 (1/5)) p hp
    rw [this.2.2, h1]
    norm_num

/-- C3 amended witness: the ring facts at the scenario-B parameters
(tower radius 5, tower height 20, base radius 10, base height 2,
curve exponent 4, layer height 0.2). -/
theorem base_layer_rings_witness :
    (0 : ℚ) < 2 ∧ (2 : ℚ) < 20 ∧
    (intermediateLayers 5 10 2 4 (numBaseLayers 2 (1/5))).length =
      numBaseLayers 2 (1/5) - 1 ∧
    (∀ p ∈ intermediateLayers 5 (5 + 5) 2 4 (numBaseLayers 2 (1/5)),
        p.1 = 1 → p.2 = 5 + 5/16) := by
  have h := base_layer_rings 5 20 10 2 (1/5) 4 (by norm_num) (by norm_num)
  exact ⟨by norm_num, by norm_num, h.1, h.2.2.2⟩

/-- C8. Whenever the base margin is ≤ 0 or the base height is ≤ 0
(`has_base = base_size > 0 and base_height > 0` is false), the builder emits
the simple right cylinder of radius towerSize/2 and height towerHeight: 32
angular segments, a 32-triangle fan bottom cap, 64 side triangles (one quad
split in two per segment) and a 32-triangle fan top cap — 128 triangles in
all, each of one of those three forms. -/
theorem simple_cylinder_path (ts th bs bh lh : ℚ) (curve : ℕ)
    (h : bs ≤ 0 ∨ bh ≤ 0) :
    buildPrimeTowerMesh ts th bs bh curve lh = simpleCylinder (ts / 2) th ∧
    (simpleCylinder (ts / 2) th).length = 128 ∧
    (∀ t ∈ simpleCylinder (ts / 2) th,
      (∃ i < segments,
        t = ⟨Pt.center 0, ringPt (ts / 2) 0 i, ringPt (ts / 2) 0 (i + 1)⟩) ∨
      (∃ i < segments,
        t = ⟨ringPt (ts / 2) 0 i, ringPt (ts / 2) 0 (i + 1), ringPt (ts / 2) th i⟩ ∨
        t = ⟨ringPt (ts / 2) th i, ringPt (ts / 2) 0 (i + 1), ringPt (ts / 2) th (i + 1)⟩) ∨
      (∃ i < segments,
        t = ⟨Pt.center th, ringPt (ts / 2) th i, ringPt (ts / 2) th (i + 1)⟩)) := by
  have hnb : ¬ (0 < bs ∧ 0 < bh) := by
    rcases h with h | h <;> rintro ⟨h1, h2⟩ <;> linarith
  refine ⟨by simp [buildPrimeTowerMesh, hnb], by rfl, ?_⟩
  intro t ht
  simp only [simpleCylinder, List.mem_append, List.mem_map, List.mem_flatMap,
    List.mem_range, List.mem_cons, List.not_mem_nil, or_false] at ht
  rcases ht with (⟨i, hi, rfl⟩ | ⟨i, hi, hcase⟩) | ⟨i, hi, rfl⟩
  · exact Or.inl ⟨i, hi, rfl⟩
  · rcases hcase with rfl | rfl
    · exact Or.inr (Or.inl ⟨i, hi, Or.inl rfl⟩)
    · exact Or.inr (Or.inl ⟨i, hi, Or.inr rfl⟩)
  · exact Or.inr (Or.inr ⟨i, hi, rfl⟩)

/-- C8 witness: the degenerate-base dispatch at tower size 10, height 20,
zero base margin and zero base height. -/
theorem simple_cylinder_path_witness :
    buildPrimeTowerMesh 10 20 0 0 4 (1/5) = simpleCylinder (10 / 2) 20 ∧
    (simpleCylinder ((10 : ℚ) / 2) 20).length = 128 := by
  have h := simple_cylinder_path 10 20 0 0 (1/5) 4 (Or.inl le_rfl)
  exact ⟨h.1, h.2.1⟩

/-- `_onNodeTransformChanged` is an exact no-op while the re-entrancy flag is
set (line 669). -/
@[simp] theorem transformChanged_noop (n : ℕ) (s : St) (h : s.flag = true) :
    run n .transformChanged s = s := by
  cases n with
  | zero => rfl
  | succ n =>
    cases hn : s.node with
    | none => simp [run, hn]
    | some nd => simp [run, hn, h]

/-- `_onSceneChanged` is an exact no-op while the re-entrancy flag is set
(line 268). -/
@[simp] theorem sceneChanged_noop (n : ℕ) (s : St) (h : s.flag = true) :
    run n .sceneChanged s = s := by
  cases n with
  | zero => rfl
  | succ n => simp [run, h]

/-- `_onSceneObjectsChanged` is an exact no-op while the re-entrancy flag or
the creating flag is set (line 280). -/
@[simp] theorem sceneObjectsChanged_noop (n : ℕ) (s : St)
    (h : s.flag = true ∨ s.creating = true) :
    run n .sceneObjectsChanged s = s := by
  cases n with
  | zero => rfl
  | succ n => rcases h with h | h <;> simp [run, h]

/-- `_updateSettingsFromNode` is an exact no-op while the re-entrancy flag is
set (line 727). -/
@[simp] theorem updateSettingsFromNode_noop (n : ℕ) (s : St) (h : s.flag = true) :
    run n .updateSettingsFromNode s = s := by
  cases n with
  | zero => rfl
  | succ n =>
    cases hn : s.node with
    | none => simp [run, hn]
    | some nd => simp [run, hn, h]

/-- While the re-entrancy flag is set, `setPosition` only moves the node: its
`transformationChanged` dispatch is suppressed by the flag. -/
@[simp] theorem setPos_flag (n : ℕ) (v : V3) (s : St) (h : s.flag = true) :
    run n (.setPos v) s
      = { s with node := s.node.map fun nd => { nd with pos := v } } := by
  cases n with
  | zero => rfl
  | succ n =>
    show run n .transformChanged _ = _
    exact transformChanged_noop n _ h

/-- While the re-entrancy flag is set, `setScale` only rescales the node. -/
@[simp] theorem setScale_flag (n : ℕ) (v : V3) (s : St) (h : s.flag = true) :
    run n (.setScale v) s
      = { s with node := s.node.map fun nd => { nd with scale := v } } := by
  cases n with
  | zero => rfl
  | succ n =>
    show run n .transformChanged _ = _
    exact transformChanged_noop n _ h

/-- `_onSelectionChanged` either leaves the state unchanged or only updates
the selection cache. -/
theorem selectionChanged_cases (n : ℕ) (s : St) :
    run n .selectionChanged s = s ∨
    run n .selectionChanged s = { s with wasSelected := s.selected } := by
  cases n with
  | zero => exact Or.inl rfl
  | succ n =>
    cases hn : s.node with
    | none => exact Or.inl (by simp [run, hn])
    | some nd =>
      by_cases hs : s.selected = s.wasSelected
      · exact Or.inl (by simp [run, hn, hs])
      · exact Or.inr (by simp [run, hn, hs])

/-- `_onSelectionChanged` leaves every field except the selection cache
unchanged. -/
@[simp] theorem selectionChanged_writes (n : ℕ) (s : St) :
    (run n .selectionChanged s).writes = s.writes := by
  rcases selectionChanged_cases n s with h | h <;> rw [h]

@[simp] theorem selectionChanged_flag (n : ℕ) (s : St) :
    (run n .selectionChanged s).flag = s.flag := by
  rcases selectionChanged_cases n s with h | h <;> rw [h]

@[simp] theorem selectionChanged_creating (n : ℕ) (s : St) :
    (run n .selectionChanged s).creating = s.creating := by
  rcases selectionChanged_cases n s with h | h <;> rw [h]

@[simp] theorem selectionChanged_node (n : ℕ) (s : St) :
    (run n .selectionChanged s).node = s.node := by
  rcases selectionChanged_cases n s with h | h <;> rw [h]

@[simp] theorem selectionChanged_nodeAttached (n : ℕ) (s : St) :
    (run n .selectionChanged s).nodeAttached = s.nodeAttached := by
  rcases selectionChanged_cases n s with h | h <;> rw [h]

@[simp] theorem selectionChanged_pendingFlag (n : ℕ) (s : St) :
    (run n .selectionChanged s).pendingFlag = s.pendingFlag := by
  rcases selectionChanged_cases n s with h | h <;> rw [h]

@[simp] theorem selectionChanged_pendingOriginal (n : ℕ) (s : St) :
    (run n .selectionChanged s).pendingOriginal = s.pendingOriginal := by
  rcases selectionChanged_cases n s with h | h <;> rw [h]

/-- Projection lemmas for the state helpers (each helper changes only the
fields it names). -/
@[simp] theorem setFlag_flag (b : Bool) (s : St) : (setFlag b s).flag = b := rfl
@[simp] theorem setFlag_creating (b : Bool) (s : St) : (setFlag b s).creating = s.creating := rfl
@[simp] theorem setFlag_node (b : Bool) (s : St) : (setFlag b s).node = s.node := rfl
@[simp] theorem setFlag_nodeAttached (b : Bool) (s : St) : (setFlag b s).nodeAttached = s.nodeAttached := rfl
@[simp] theorem setFlag_writes (b : Bool) (s : St) : (setFlag b s).writes = s.writes := rfl
@[simp] theorem setFlag_pendingFlag (b : Bool) (s : St) : (setFlag b s).pendingFlag = s.pendingFlag := rfl
@[simp] theorem setFlag_pendingOriginal (b : Bool) (s : St) : (setFlag b s).pendingOriginal = s.pendingOriginal := rfl
@[simp] theorem setFlag_config (b : Bool) (s : St) : (setFlag b s).config = s.config := rfl
@[simp] theorem endCreate_flag (s : St) : (endCreate s).flag = false := rfl
@[simp] theorem endCreate_creating (s : St) : (endCreate s).creating = false := rfl
@[simp] theorem endCreate_node (s : St) : (endCreate s).node = s.node := rfl
@[simp] theorem endCreate_writes (s : St) : (endCreate s).writes = s.writes := rfl
@[simp] theorem endCreate_pendingFlag (s : St) : (endCreate s).pendingFlag = s.pendingFlag := rfl
@[simp] theorem endCreate_pendingOriginal (s : St) : (endCreate s).pendingOriginal = s.pendingOriginal := rfl
@[simp] theorem detachNode_flag (s : St) : (detachNode s).flag = s.flag := rfl
@[simp] theorem detachNode_creating (s : St) : (detachNode s).creating = s.creating := rfl
@[simp] theorem detachNode_node (s : St) : (detachNode s).node = s.node := rfl
@[simp] theorem detachNode_nodeAttached (s : St) : (detachNode s).nodeAttached = false := rfl
@[simp] theorem detachNode_writes (s : St) : (detachNode s).writes = s.writes := rfl
@[simp] theorem detachNode_pendingFlag (s : St) : (detachNode s).pendingFlag = s.pendingFlag := rfl
@[simp] theorem detachNode_pendingOriginal (s : St) : (detachNode s).pendingOriginal = s.pendingOriginal := rfl
@[simp] theorem dropNodeRef_flag (s : St) : (dropNodeRef s).flag = s.flag := rfl
@[simp] theorem dropNodeRef_node (s : St) : (dropNodeRef s).node = none := rfl
@[simp] theorem dropNodeRef_writes (s : St) : (dropNodeRef s).writes = s.writes := rfl
@[simp] theorem dropNodeRef_pendingFlag (s : St) : (dropNodeRef s).pendingFlag = s.pendingFlag := rfl
@[simp] theorem dropNodeRef_pendingOriginal (s : St) : (dropNodeRef s).pendingOriginal = s.pendingOriginal := rfl
@[simp] theorem cacheBuildPlateY_flag (s : St) : (cacheBuildPlateY s).flag = s.flag := rfl
@[simp] theorem cacheBuildPlateY_node (s : St) : (cacheBuildPlateY s).node = s.node := rfl
@[simp] theorem cacheBuildPlateY_writes (s : St) : (cacheBuildPlateY s).writes = s.writes := rfl
@[simp] theorem cacheBuildPlateY_pendingFlag (s : St) : (cacheBuildPlateY s).pendingFlag = s.pendingFlag := rfl
@[simp] theorem cacheBuildPlateY_pendingOriginal (s : St) : (cacheBuildPlateY s).pendingOriginal = s.pendingOriginal := rfl
@[simp] theorem cacheBuildPlateY_buildPlateY (s : St) : (cacheBuildPlateY s).buildPlateY = s.restY := rfl

/-- Dispatch distributes over a conditional state: both branches run the same
call.  Used to float user-visible case splits out of nested dispatches. -/
theorem run_ite (n : ℕ) (c : Call) (P : Prop) [Decidable P] (a b : St) :
    run n c (if P then a else b) = if P then run n c a else run n c b := by
  split <;> rfl

/-- The dispatch invariant: under `KPre` a call performs exactly its own
configuration writes (none, except `setProp`'s one) and leaves the pending
scale transaction untouched; under `NPre` it also preserves the node's
presence and scale.  Induction over the dispatch fuel. -/
theorem run_inv (n : ℕ) (c : Call) (s : St) :
    (KPre c s → keepsW c s (run n c s)) ∧ (NPre c s → keepsScale s (run n c s)) := by
  induction n generalizing c s with
  | zero =>
    cases c with
    | setProp k v => exact ⟨fun _ => ⟨rfl, rfl, rfl⟩, fun _ => rfl⟩
    | setPos v =>
      exact ⟨fun _ => ⟨(List.append_nil _).symm, rfl, rfl⟩,
        fun _ => by cases h : s.node <;> simp [keepsScale, run, geomKey, posKey, h]⟩
    | setScale v =>
      exact ⟨fun _ => ⟨(List.append_nil _).symm, rfl, rfl⟩, fun h => False.elim h⟩
    | toolOperationStopped => exact ⟨fun h => False.elim h, fun h => False.elim h⟩
    | settingChanged k =>
      exact ⟨fun _ => ⟨(List.append_nil _).symm, rfl, rfl⟩, fun _ => rfl⟩
    | sceneChanged =>
      exact ⟨fun _ => ⟨(List.append_nil _).symm, rfl, rfl⟩, fun _ => rfl⟩
    | sceneObjectsChanged =>
      exact ⟨fun _ => ⟨(List.append_nil _).symm, rfl, rfl⟩, fun _ => rfl⟩
    | transformChanged =>
      exact ⟨fun _ => ⟨(List.append_nil _).symm, rfl, rfl⟩, fun _ => rfl⟩
    | selectionChanged =>
      exact ⟨fun _ => ⟨(List.append_nil _).symm, rfl, rfl⟩, fun _ => rfl⟩
    | checkCreate =>
      exact ⟨fun _ => ⟨(List.append_nil _).symm, rfl, rfl⟩, fun _ => rfl⟩
    | createNode =>
      exact ⟨fun _ => ⟨(List.append_nil _).symm, rfl, rfl⟩, fun _ => rfl⟩
    | removeNode =>
      exact ⟨fun _ => ⟨(List.append_nil _).symm, rfl, rfl⟩, fun _ => rfl⟩
    | regenerateMesh =>
      exact ⟨fun _ => ⟨(List.append_nil _).symm, rfl, rfl⟩, fun _ => rfl⟩
    | updateNodePosition =>
      exact ⟨fun _ => ⟨(List.append_nil _).symm, rfl, rfl⟩, fun _ => rfl⟩
    | updateSettingsFromNode =>
      exact ⟨fun _ => ⟨(List.append_nil _).symm, rfl, rfl⟩, fun _ => rfl⟩
    | checkCollision =>
      exact ⟨fun _ => ⟨(List.append_nil _).symm, rfl, rfl⟩, fun _ => rfl⟩
  | succ n ih =>
    -- ∀-quantified equation forms of the induction hypothesis, for simp
    have upW : ∀ t, (run n .updateNodePosition t).writes = t.writes :=
      fun t => by simpa [writeDelta] using ((ih .updateNodePosition t).1 trivial).1
    have upPF : ∀ t, (run n .updateNodePosition t).pendingFlag = t.pendingFlag :=
      fun t => ((ih .updateNodePosition t).1 trivial).2.1
    have upPO : ∀ t, (run n .updateNodePosition t).pendingOriginal = t.pendingOriginal :=
      fun t => ((ih .updateNodePosition t).1 trivial).2.2
    have upN : ∀ t, (run n .updateNodePosition t).node.map NodeState.scale
        = t.node.map NodeState.scale := fun t => (ih .updateNodePosition t).2 trivial
    have rgW : ∀ t, (run n .regenerateMesh t).writes = t.writes :=
      fun t => by simpa [writeDelta] using ((ih .regenerateMesh t).1 trivial).1
    have rgPF : ∀ t, (run n .regenerateMesh t).pendingFlag = t.pendingFlag :=
      fun t => ((ih .regenerateMesh t).1 trivial).2.1
    have rgPO : ∀ t, (run n .regenerateMesh t).pendingOriginal = t.pendingOriginal :=
      fun t => ((ih .regenerateMesh t).1 trivial).2.2
    have rgN : ∀ t, (run n .regenerateMesh t).node.map NodeState.scale
        = t.node.map NodeState.scale := fun t => (ih .regenerateMesh t).2 trivial
    have tcW : ∀ t, (run n .transformChanged t).writes = t.writes :=
      fun t => by simpa [writeDelta] using ((ih .transformChanged t).1 trivial).1
    have tcPF : ∀ t, (run n .transformChanged t).pendingFlag = t.pendingFlag :=
      fun t => ((ih .transformChanged t).1 trivial).2.1
    have tcPO : ∀ t, (run n .transformChanged t).pendingOriginal = t.pendingOriginal :=
      fun t => ((ih .transformChanged t).1 trivial).2.2
    have tcN : ∀ t, (run n .transformChanged t).node.map NodeState.scale
        = t.node.map NodeState.scale := fun t => (ih .transformChanged t).2 trivial
    have ccW : ∀ t, (run n .checkCollision t).writes = t.writes :=
      fun t => by simpa [writeDelta] using ((ih .checkCollision t).1 trivial).1
    have ccPF : ∀ t, (run n .checkCollision t).pendingFlag = t.pendingFlag :=
      fun t => ((ih .checkCollision t).1 trivial).2.1
    have ccPO : ∀ t, (run n .checkCollision t).pendingOriginal = t.pendingOriginal :=
      fun t => ((ih .checkCollision t).1 trivial).2.2
    have ccN : ∀ t, (run n .checkCollision t).node.map NodeState.scale
        = t.node.map NodeState.scale := fun t => (ih .checkCollision t).2 trivial
    have cnW : ∀ t, (run n .createNode t).writes = t.writes :=
      fun t => by simpa [writeDelta] using ((ih .createNode t).1 trivial).1
    have cnPF : ∀ t, (run n .createNode t).pendingFlag = t.pendingFlag :=
      fun t => ((ih .createNode t).1 trivial).2.1
    have cnPO : ∀ t, (run n .createNode t).pendingOriginal = t.pendingOriginal :=
      fun t => ((ih .createNode t).1 trivial).2.2
    have rmW : ∀ t, t.flag = true → (run n .removeNode t).writes = t.writes :=
      fun t h => by simpa [writeDelta] using ((ih .removeNode t).1 h).1
    have rmPF : ∀ t, t.flag = true → (run n .removeNode t).pendingFlag = t.pendingFlag :=
      fun t h => ((ih .removeNode t).1 h).2.1
    have rmPO : ∀ t, t.flag = true →
        (run n .removeNode t).pendingOriginal = t.pendingOriginal :=
      fun t h => ((ih .removeNode t).1 h).2.2
    have ckW : ∀ t, t.flag = true → (run n .checkCreate t).writes = t.writes :=
      fun t h => by simpa [writeDelta] using ((ih .checkCreate t).1 h).1
    have ckPF : ∀ t, t.flag = true → (run n .checkCreate t).pendingFlag = t.pendingFlag :=
      fun t h => ((ih .checkCreate t).1 h).2.1
    have ckPO : ∀ t, t.flag = true →
        (run n .checkCreate t).pendingOriginal = t.pendingOriginal :=
      fun t h => ((ih .checkCreate t).1 h).2.2
    cases c with
    | setProp k v =>
      constructor
      · intro h
        obtain ⟨w1, w2, w3⟩ := (ih (.settingChanged k) (recordWrite k v s)).1 h
        exact ⟨w1.trans (by simp [recordWrite, writeDelta]),
               w2.trans (by simp [recordWrite]),
               w3.trans (by simp [recordWrite])⟩
      · intro h
        exact ((ih (.settingChanged k) (recordWrite k v s)).2 h).trans
          (by simp [recordWrite])
    | setPos v =>
      constructor
      · intro _
        exact (ih .transformChanged _).1 trivial
      · intro _
        refine ((ih .transformChanged _).2 trivial).trans ?_
        cases h : s.node <;> simp [h]
    | setScale v =>
      exact ⟨fun _ => (ih .transformChanged _).1 trivial, fun h => False.elim h⟩
    | settingChanged k =>
      cases k with
      | primeTowerSize =>
        constructor
        · intro _
          cases hn : s.node with
          | none => simp [run, geomKey, posKey, hn, writeDelta, keepsW]
          | some nd =>
            exact ⟨by simp [run, geomKey, posKey, hn, writeDelta, rgW], by simp [run, geomKey, posKey, hn, rgPF],
                   by simp [run, geomKey, posKey, hn, rgPO]⟩
        · intro _
          cases hn : s.node with
          | none => simp [run, geomKey, posKey, hn, keepsScale]
          | some nd => simp [keepsScale, run, geomKey, posKey, hn, rgN]
      | primeTowerBaseSize =>
        constructor
        · intro _
          cases hn : s.node with
          | none => simp [run, geomKey, posKey, hn, writeDelta, keepsW]
          | some nd =>
            exact ⟨by simp [run, geomKey, posKey, hn, writeDelta, rgW], by simp [run, geomKey, posKey, hn, rgPF],
                   by simp [run, geomKey, posKey, hn, rgPO]⟩
        · intro _
          cases hn : s.node with
          | none => simp [run, geomKey, posKey, hn, keepsScale]
          | some nd => simp [keepsScale, run, geomKey, posKey, hn, rgN]
      | primeTowerBaseHeight =>
        constructor
        · intro _
          cases hn : s.node with
          | none => simp [run, geomKey, posKey, hn, writeDelta, keepsW]
          | some nd =>
            exact ⟨by simp [run, geomKey, posKey, hn, writeDelta, rgW], by simp [run, geomKey, posKey, hn, rgPF],
                   by simp [run, geomKey, posKey, hn, rgPO]⟩
        · intro _
          cases hn : s.node with
          | none => simp [run, geomKey, posKey, hn, keepsScale]
          | some nd => simp [keepsScale, run, geomKey, posKey, hn, rgN]
      | primeTowerBaseCurveMagnitude =>
        constructor
        · intro _
          cases hn : s.node with
          | none => simp [run, geomKey, posKey, hn, writeDelta, keepsW]
          | some nd =>
            exact ⟨by simp [run, geomKey, posKey, hn, writeDelta, rgW], by simp [run, geomKey, posKey, hn, rgPF],
                   by simp [run, geomKey, posKey, hn, rgPO]⟩
        · intro _
          cases hn : s.node with
          | none => simp [run, geomKey, posKey, hn, keepsScale]
          | some nd => simp [keepsScale, run, geomKey, posKey, hn, rgN]
      | layerHeight =>
        constructor
        · intro _
          cases hn : s.node with
          | none => simp [run, geomKey, posKey, hn, writeDelta, keepsW]
          | some nd =>
            exact ⟨by simp [run, geomKey, posKey, hn, writeDelta, rgW], by simp [run, geomKey, posKey, hn, rgPF],
                   by simp [run, geomKey, posKey, hn, rgPO]⟩
        · intro _
          cases hn : s.node with
          | none => simp [run, geomKey, posKey, hn, keepsScale]
          | some nd => simp [keepsScale, run, geomKey, posKey, hn, rgN]
      | primeTowerPositionX =>
        constructor
        · intro _
          cases hn : s.node with
          | none => simp [run, geomKey, posKey, hn, writeDelta, keepsW]
          | some nd =>
            exact ⟨by simp [run, geomKey, posKey, hn, writeDelta, upW], by simp [run, geomKey, posKey, hn, upPF],
                   by simp [run, geomKey, posKey, hn, upPO]⟩
        · intro _
          cases hn : s.node with
          | none => simp [run, geomKey, posKey, hn, keepsScale]
          | some nd => simp [keepsScale, run, geomKey, posKey, hn, upN]
      | primeTowerPositionY =>
        constructor
        · intro _
          cases hn : s.node with
          | none => simp [run, geomKey, posKey, hn, writeDelta, keepsW]
          | some nd =>
            exact ⟨by simp [run, geomKey, posKey, hn, writeDelta, upW], by simp [run, geomKey, posKey, hn, upPF],
                   by simp [run, geomKey, posKey, hn, upPO]⟩
        · intro _
          cases hn : s.node with
          | none => simp [run, geomKey, posKey, hn, keepsScale]
          | some nd => simp [keepsScale, run, geomKey, posKey, hn, upN]
      | machineWidth =>
        exact ⟨fun _ => by simp [run, geomKey, posKey, writeDelta, keepsW],
               fun _ => by simp [run, geomKey, posKey, keepsScale]⟩
      | machineDepth =>
        exact ⟨fun _ => by simp [run, geomKey, posKey, writeDelta, keepsW],
               fun _ => by simp [run, geomKey, posKey, keepsScale]⟩
      | machineCenterIsZero =>
        exact ⟨fun _ => by simp [run, geomKey, posKey, writeDelta, keepsW],
               fun _ => by simp [run, geomKey, posKey, keepsScale]⟩
      | primeTowerEnable =>
        constructor
        · intro h
          have hf : s.flag = true := by
            rcases h with h | h
            · exact h
            · simp [safeKey] at h
          exact ⟨by simp [run, geomKey, posKey, writeDelta, ckW _ hf], by simp [run, geomKey, posKey, ckPF _ hf],
                 by simp [run, geomKey, posKey, ckPO _ hf]⟩
        · intro h
          simp [NPre, safeKey] at h
      | supportEnable =>
        constructor
        · intro h
          have hf : s.flag = true := by
            rcases h with h | h
            · exact h
            · simp [safeKey] at h
          exact ⟨by simp [run, geomKey, posKey, writeDelta, ckW _ hf], by simp [run, geomKey, posKey, ckPF _ hf],
                 by simp [run, geomKey, posKey, ckPO _ hf]⟩
        · intro h
          simp [NPre, safeKey] at h
    | sceneChanged =>
      exact ⟨fun h => by simp [run, geomKey, posKey, h, writeDelta, keepsW],
             fun h => by simp [run, geomKey, posKey, h, keepsScale]⟩
    | sceneObjectsChanged =>
      constructor
      · intro h
        rcases h with h | h <;> simp [run, geomKey, posKey, h, writeDelta, keepsW]
      · intro h
        rcases h with h | h <;> simp [run, geomKey, posKey, h, keepsScale]
    | transformChanged =>
      constructor
      · intro _
        cases hn : s.node with
        | none => simp [run, geomKey, posKey, hn, writeDelta, keepsW]
        | some nd =>
          by_cases hf : s.flag = true
          · simp [run, geomKey, posKey, hn, hf, writeDelta, keepsW]
          · by_cases ho : nd.orientIdentity = true <;>
              refine ⟨?_, ?_, ?_⟩ <;>
              simp [run, hn, hf, ho, run_ite, apply_ite, writeDelta, ccW, ccPF, ccPO]
      · intro _
        cases hn : s.node with
        | none => simp [run, geomKey, posKey, hn, keepsScale]
        | some nd =>
          by_cases hf : s.flag = true
          · simp [run, geomKey, posKey, hn, hf, keepsScale]
          · by_cases ho : nd.orientIdentity = true <;>
              simp [keepsScale, run, hn, hf, ho, run_ite, apply_ite, ccN]
    | selectionChanged =>
      constructor
      · intro _
        rcases selectionChanged_cases (n + 1) s with h | h <;>
          simp [h, writeDelta, keepsW]
      · intro _
        rcases selectionChanged_cases (n + 1) s with h | h <;>
          simp [h, keepsScale]
    | checkCreate =>
      refine ⟨fun h => ?_, fun h => False.elim h⟩
      by_cases h1 : (shouldShowTower s.config.enable s.extruders && s.node.isNone) = true
      · exact ⟨by simp [run, geomKey, posKey, h1, writeDelta, cnW], by simp [run, geomKey, posKey, h1, cnPF],
               by simp [run, geomKey, posKey, h1, cnPO]⟩
      · by_cases h2 : (!shouldShowTower s.config.enable s.extruders && s.node.isSome) = true
        · exact ⟨by simp [run, geomKey, posKey, h1, h2, writeDelta, rmW _ h], by simp [run, geomKey, posKey, h1, h2, rmPF _ h],
                 by simp [run, geomKey, posKey, h1, h2, rmPO _ h]⟩
        · exact ⟨by simp [run, geomKey, posKey, h1, h2, writeDelta], by simp [run, geomKey, posKey, h1, h2],
                 by simp [run, geomKey, posKey, h1, h2]⟩
    | createNode =>
      refine ⟨fun _ => ?_, fun h => False.elim h⟩
      exact ⟨by simp [run, geomKey, posKey, writeDelta, upW], by simp [run, geomKey, posKey, upPF], by simp [run, geomKey, posKey, upPO]⟩
    | removeNode =>
      refine ⟨fun h => ?_, fun h2 => False.elim h2⟩
      cases hn : s.node with
      | none => simp [run, geomKey, posKey, hn, writeDelta, keepsW]
      | some nd =>
        by_cases hsel : s.selected = true <;>
          refine ⟨?_, ?_, ?_⟩ <;>
          simp [run, geomKey, posKey, hn, h, hsel, keepsW, writeDelta]
    | regenerateMesh =>
      constructor
      · intro _
        cases hn : s.node with
        | none => simp [run, geomKey, posKey, hn, writeDelta, keepsW]
        | some nd =>
          exact ⟨by simp [run, geomKey, posKey, hn, writeDelta, upW], by simp [run, geomKey, posKey, hn, upPF],
                 by simp [run, geomKey, posKey, hn, upPO]⟩
      · intro _
        cases hn : s.node with
        | none => simp [run, geomKey, posKey, hn, keepsScale]
        | some nd => simp [keepsScale, run, geomKey, posKey, hn, upN]
    | updateNodePosition =>
      constructor
      · intro _
        cases hn : s.node with
        | none => simp [run, geomKey, posKey, hn, writeDelta, keepsW]
        | some nd =>
          cases hx : s.config.posX with
          | none => simp [run, geomKey, posKey, hn, hx, writeDelta, keepsW]
          | some px =>
            cases hy : s.config.posY with
            | none => simp [run, geomKey, posKey, hn, hx, hy, writeDelta, keepsW]
            | some py =>
              exact ⟨by simp [run, geomKey, posKey, hn, hx, hy, writeDelta, ccW], by simp [run, geomKey, posKey, hn, hx, hy, ccPF],
                     by simp [run, geomKey, posKey, hn, hx, hy, ccPO]⟩
      · intro _
        cases hn : s.node with
        | none => simp [run, geomKey, posKey, hn, keepsScale]
        | some nd =>
          cases hx : s.config.posX with
          | none => simp [run, geomKey, posKey, hn, hx, keepsScale]
          | some px =>
            cases hy : s.config.posY with
            | none => simp [run, geomKey, posKey, hn, hx, hy, keepsScale]
            | some py => simp [keepsScale, run, geomKey, posKey, hn, hx, hy, ccN]
    | updateSettingsFromNode =>
      constructor
      · intro h
        cases hn : s.node with
        | none => simp [run, geomKey, posKey, hn, writeDelta, keepsW]
        | some nd => simp [run, geomKey, posKey, hn, h, writeDelta, keepsW]
      · intro h
        cases hn : s.node with
        | none => simp [run, geomKey, posKey, hn, keepsScale]
        | some nd => simp [keepsScale, run, geomKey, posKey, hn, h]
    | checkCollision =>
      constructor
      · intro _
        cases hn : s.node with
        | none => simp [run, geomKey, posKey, hn, writeDelta, keepsW]
        | some nd =>
          by_cases hv : (s.volumeHasErrors != s.collisionDetected) = true
          · exact ⟨by simp [run, geomKey, posKey, hn, hv, writeDelta, tcW], by simp [run, geomKey, posKey, hn, hv, tcPF],
                   by simp [run, geomKey, posKey, hn, hv, tcPO]⟩
          · simp [run, geomKey, posKey, hn, hv, writeDelta, keepsW]
      · intro _
        cases hn : s.node with
        | none => simp [run, geomKey, posKey, hn, keepsScale]
        | some nd =>
          by_cases hv : (s.volumeHasErrors != s.collisionDetected) = true
          · simp [keepsScale, run, geomKey, posKey, hn, hv, tcN]
          · simp [run, geomKey, posKey, hn, hv, keepsScale]
    | toolOperationStopped =>
      exact ⟨fun h => False.elim h, fun h => False.elim h⟩

/-- The commit corner keeps the world-space footprint center fixed: the
center derived from the new `(size, positionX, positionY)` equals the center
derived from the originals, for every machine profile. -/
theorem commitCorner_center (oS oX oY newSize : ℚ) (m : Machine) :
    centerFromConfig newSize (commitCorner oS oX oY newSize m).1
      (commitCorner oS oX oY newSize m).2 m = centerFromConfig oS oX oY m := by
  rcases m with ⟨w, d, cz⟩
  cases cz <;>
    · simp only [commitCorner, centerFromConfig, toWorldCorner, Prod.ext_iff,
        Bool.false_eq_true, if_false, if_true]
      constructor <;> ring

/-- `setScale` sets the node's scale (and the suppressed or re-entrant
`transformationChanged` dispatch leaves it there). -/
theorem setScale_scale (n : ℕ) (v : V3) (t : St) :
    (run n (.setScale v) t).node.map NodeState.scale
      = t.node.map fun _ => v := by
  cases n with
  | zero => cases h : t.node <;> simp [run, h]
  | succ n =>
    have h2 := (run_inv n .transformChanged
      { t with node := t.node.map fun nd => { nd with scale := v } }).2 trivial
    refine h2.trans ?_
    cases h : t.node <;> simp [h]

/-- C2 counterexample: the configuration-change handler
(`_onSettingValueChanged`) does not no-op while the re-entrancy flag is set —
it has no flag check, so with the flag held a `prime_tower_size` change still
regenerates the mesh (lines 442-444), observably updating the cached mesh
diameter (and releasing the flag from the nested `finally` blocks). -/
theorem reentrancy_guard_counterexample :
    flaggedState.flag = true ∧
    run 6 (.settingChanged .primeTowerSize) flaggedState ≠ flaggedState ∧
    (run 6 (.settingChanged .primeTowerSize) flaggedState).meshDiameter = 12 ∧
    flaggedState.meshDiameter = 10 := by
  refine ⟨rfl, by decide, by decide, rfl⟩

/-- C2 amended: the scene-change, scene-objects-change and node-transform
handlers, and the settings-from-node synchronizer, are exact no-ops while the
re-entrancy flag is set; the configuration-change handler is not (it may
regenerate or reposition), but no handler writes configuration while the flag
is held, so a configuration write performed while the flag is held adds
exactly itself to the write log — in particular it never triggers a second
write of the same key within the same synchronous call. -/
theorem reentrancy_guard :
    (∀ (n : ℕ) (s : St), s.flag = true →
        run n .sceneChanged s = s ∧ run n .sceneObjectsChanged s = s ∧
        run n .transformChanged s = s ∧ run n .updateSettingsFromNode s = s) ∧
    (∀ (n : ℕ) (k : Key) (v : ℚ) (s : St), s.flag = true →
        (run n (.setProp k v) s).writes = s.writes ++ [(k, v)]) := by
  constructor
  · intro n s h
    exact ⟨sceneChanged_noop n s h, sceneObjectsChanged_noop n s (Or.inl h),
           transformChanged_noop n s h, updateSettingsFromNode_noop n s h⟩
  · intro n k v s h
    have h2 := ((run_inv n (.setProp k v) s).1 (Or.inl h)).1
    simpa [writeDelta] using h2

/-- C2 amended witness: the guard facts at a concrete flagged state. -/
theorem reentrancy_guard_witness :
    flaggedState.flag = true ∧
    run 3 .sceneChanged flaggedState = flaggedState ∧
    (run 3 (.setProp .primeTowerPositionX 77) flaggedState).writes =
      flaggedState.writes ++ [(.primeTowerPositionX, 77)] := by
  exact ⟨rfl, (reentrancy_guard.1 3 flaggedState rfl).1,
         reentrancy_guard.2 3 .primeTowerPositionX 77 flaggedState rfl⟩

/-- C10. The scale factor used for size synchronization is
`max(scale.x, scale.z)` (line 740), so when the node's x and z scale
components are both within 0.01 of 1.0 the transform-feedback pass neither
writes the tower size nor opens a pending scale transaction, regardless of
the y scale component. -/
theorem scale_sync_y_insensitive (n : ℕ) (s : St) (nd : NodeState)
    (hn : s.node = some nd)
    (hx : |nd.scale.x - 1| ≤ 1/100) (hz : |nd.scale.z - 1| ≤ 1/100) :
    (run n .updateSettingsFromNode s).pendingFlag = s.pendingFlag ∧
    (run n .updateSettingsFromNode s).pendingOriginal = s.pendingOriginal ∧
    (run n .updateSettingsFromNode s).writes.filter (fun p => p.1 == Key.primeTowerSize)
      = s.writes.filter (fun p => p.1 == Key.primeTowerSize) := by
  have hmax : ¬ (1/100 < |max nd.scale.x nd.scale.z - 1|) := by
    rcases max_choice nd.scale.x nd.scale.z with h | h <;> rw [h]
    · exact not_lt.mpr hx
    · exact not_lt.mpr hz
  cases n with
  | zero => exact ⟨rfl, rfl, rfl⟩
  | succ n =>
    have pW : ∀ (k : Key) (v : ℚ) (t : St), safeKey k = true →
        (run n (.setProp k v) t).writes = t.writes ++ [(k, v)] := fun k v t hk => by
      simpa [writeDelta] using ((run_inv n (.setProp k v) t).1 (Or.inr hk)).1
    have pPF : ∀ (k : Key) (v : ℚ) (t : St), safeKey k = true →
        (run n (.setProp k v) t).pendingFlag = t.pendingFlag := fun k v t hk =>
      ((run_inv n (.setProp k v) t).1 (Or.inr hk)).2.1
    have pPO : ∀ (k : Key) (v : ℚ) (t : St), safeKey k = true →
        (run n (.setProp k v) t).pendingOriginal = t.pendingOriginal := fun k v t hk =>
      ((run_inv n (.setProp k v) t).1 (Or.inr hk)).2.2
    have hmax2 : (((100 : ℚ))⁻¹ < |max nd.scale.x nd.scale.z - 1|) = False :=
      eq_false (by rw [← one_div]; exact hmax)
    by_cases hf : s.flag = true
    · simp [run, hn, hf]
    · by_cases ht : s.scaleToolActive = true <;>
        refine ⟨?_, ?_, ?_⟩ <;>
        simp [run, hn, hf, ht, hmax2, pW, pPF, pPO, safeKey,
          List.filter_append]

/-- C10 witness: a node scaled by 5 along y only (x and z exactly 1): the
feedback pass leaves the pending transaction closed and writes no size. -/
theorem scale_sync_y_insensitive_witness :
    yScaledState.node = some yScaledNode ∧
    yScaledNode.scale.y = 5 ∧
    (run 4 .updateSettingsFromNode yScaledState).pendingFlag = yScaledState.pendingFlag ∧
    (run 4 .updateSettingsFromNode yScaledState).pendingOriginal = yScaledState.pendingOriginal ∧
    (run 4 .updateSettingsFromNode yScaledState).writes.filter
        (fun p => p.1 == Key.primeTowerSize)
      = yScaledState.writes.filter (fun p => p.1 == Key.primeTowerSize) := by
  have h := scale_sync_y_insensitive 4 yScaledState yScaledNode rfl
    (by norm_num [yScaledNode]) (by norm_num [yScaledNode])
  exact ⟨rfl, rfl, h.1, h.2.1, h.2.2⟩

/-- The gesture-end commit of `_onToolOperationStopped` (lines 329-398), in
full generality: the subtracted margin is
`getProperty("prime_tower_base_size") or original_size` (line 354), i.e. the
configured base margin when present and non-zero, and otherwise the stored
original tower size. -/
theorem toolStopped_commit (n : ℕ) (s : St) (nd : NodeState)
    (oS oX oY bw bd newSize : ℚ)
    (hpf : s.pendingFlag = true) (hn : s.node = some nd)
    (hst : s.pendingOriginal = some (some oS, some oX, some oY))
    (hbb : getBoundingBox nd = some (bw, bd))
    (hns : newSize = max bw bd - 2 * pyOr s.config.baseSize oS) :
    (newSize ≤ 0 →
      (run (n + 1) .toolOperationStopped s).writes = s.writes ∧
      (run (n + 1) .toolOperationStopped s).pendingFlag = false ∧
      (run (n + 1) .toolOperationStopped s).pendingOriginal = none) ∧
    (0 < newSize →
      (run (n + 1) .toolOperationStopped s).writes = s.writes ++
        [(Key.primeTowerSize, newSize),
         (Key.primeTowerPositionX, (commitCorner oS oX oY newSize (machineOf s)).1),
         (Key.primeTowerPositionY, (commitCorner oS oX oY newSize (machineOf s)).2)] ∧
      centerFromConfig newSize (commitCorner oS oX oY newSize (machineOf s)).1
        (commitCorner oS oX oY newSize (machineOf s)).2 (machineOf s)
        = centerFromConfig oS oX oY (machineOf s) ∧
      (run (n + 1) .toolOperationStopped s).node.map NodeState.scale
        = some ⟨1, 1, 1⟩ ∧
      (run (n + 1) .toolOperationStopped s).pendingFlag = false ∧
      (run (n + 1) .toolOperationStopped s).pendingOriginal = none) := by
  constructor
  · intro hle
    refine ⟨?_, ?_, ?_⟩ <;>
      simp [run, hn, hpf, hst, hbb, ← hns, hle]
  · intro hpos
    have hlt2 : ¬ (newSize ≤ 0) := not_le.mpr hpos
    have pW : ∀ (k : Key) (v : ℚ) (t : St), safeKey k = true →
        (run n (.setProp k v) t).writes = t.writes ++ [(k, v)] := fun k v t hk => by
      simpa [writeDelta] using ((run_inv n (.setProp k v) t).1 (Or.inr hk)).1
    have pPF : ∀ (k : Key) (v : ℚ) (t : St), safeKey k = true →
        (run n (.setProp k v) t).pendingFlag = t.pendingFlag := fun k v t hk =>
      ((run_inv n (.setProp k v) t).1 (Or.inr hk)).2.1
    have pPO : ∀ (k : Key) (v : ℚ) (t : St), safeKey k = true →
        (run n (.setProp k v) t).pendingOriginal = t.pendingOriginal := fun k v t hk =>
      ((run_inv n (.setProp k v) t).1 (Or.inr hk)).2.2
    have pN : ∀ (k : Key) (v : ℚ) (t : St), safeKey k = true →
        (run n (.setProp k v) t).node.map NodeState.scale
          = t.node.map NodeState.scale := fun k v t hk =>
      (run_inv n (.setProp k v) t).2 hk
    have sW : ∀ (v : V3) (t : St), (run n (.setScale v) t).writes = t.writes :=
      fun v t => by
        simpa [writeDelta] using ((run_inv n (.setScale v) t).1 trivial).1
    have sPF : ∀ (v : V3) (t : St),
        (run n (.setScale v) t).pendingFlag = t.pendingFlag := fun v t =>
      ((run_inv n (.setScale v) t).1 trivial).2.1
    have sPO : ∀ (v : V3) (t : St),
        (run n (.setScale v) t).pendingOriginal = t.pendingOriginal := fun v t =>
      ((run_inv n (.setScale v) t).1 trivial).2.2
    have nodeScale_chain : ∀ (t : St),
        t.node.map NodeState.scale = some nd.scale → ∀ (v : V3),
        (run n (.setScale v) (setFlag false t)).node.map NodeState.scale = some v := by
      intro t htn v
      rw [setScale_scale]
      obtain ⟨nd2, hnd2, -⟩ := Option.map_eq_some'.mp htn
      simp [setFlag, hnd2]
    have hbody : run (n + 1) .toolOperationStopped s
        = run n (.setScale ⟨1, 1, 1⟩) (setFlag false
            (run n (.setProp .primeTowerPositionY
              (commitCorner oS oX oY newSize (machineOf s)).2)
              (run n (.setProp .primeTowerPositionX
                (commitCorner oS oX oY newSize (machineOf s)).1)
                (run n (.setProp .primeTowerSize newSize)
                  { s with pendingFlag := false, pendingOriginal := none,
                           flag := true })))) := by
      simp [run, hn, hpf, hst, hbb, machineOf, ← hns, hlt2]
    refine ⟨?_, commitCorner_center oS oX oY newSize (machineOf s), ?_, ?_, ?_⟩
    · rw [hbody]
      simp [sW, pW, safeKey]
    · rw [hbody]
      exact nodeScale_chain _ (by simp [pN, safeKey, hn]) _
    · rw [hbody]
      simp [sPF, pPF, safeKey]
    · rw [hbody]
      simp [sPO, pPO, safeKey]

/-- C1 counterexample: the claim subtracts twice the *configured* base
margin, but line 354 reads the margin as
`getProperty("prime_tower_base_size") or original_size`, so a configured
margin of 0 falls back to the original tower size.  With bounding footprint
18, original size 10 and configured margin 0, the claim predicts a committed
size of 18 − 2·0 = 18 > 0 with three configuration writes; the code computes
18 − 2·10 = −2 ≤ 0 and discards the transaction without any write. -/
theorem gesture_end_commit_counterexample :
    zeroMarginPendingState.config.baseSize = some 0 ∧
    zeroMarginPendingState.pendingOriginal = some (some 10, some 110, some 90) ∧
    getBoundingBox pendingNode = some (18, 18) ∧
    (0 : ℚ) < 18 - 2 * 0 ∧
    (run 9 .toolOperationStopped zeroMarginPendingState).writes
      = zeroMarginPendingState.writes ∧
    (run 9 .toolOperationStopped zeroMarginPendingState).pendingFlag = false := by
  have h := (toolStopped_commit 8 zeroMarginPendingState pendingNode 10 110 90 18 18 (-2)
    rfl rfl rfl
    (by norm_num [getBoundingBox, pendingNode, maxMeshRadius])
    (by norm_num [zeroMarginPendingState, pendingState, pyOr])).1 (by norm_num)
  exact ⟨rfl, rfl,
    by norm_num [getBoundingBox, pendingNode, maxMeshRadius],
    by norm_num, h.1, h.2.1⟩

/-- C1 amended: when a tool operation stops with a pending scale transaction
and the node (and stack) present, the new tower size is the node's bounding
footprint (max of width and depth) minus twice the *effective* base margin —
the configured base margin when it is present and non-zero, and otherwise
(absent or zero, Python `or` at line 354) the stored original tower size.  If
that size is non-positive the transaction is discarded and no configuration
write occurs.  Otherwise size, positionX and positionY are the only writes of
the synchronous call — performed in one re-entrancy-guarded block — the new
corner is derived from the original footprint center so that the center is
preserved, and the node's scale ends reset to 1.0.  In particular (witness)
for originalSize 10, position (110, 90), configured base margin 2 and
bounding footprint 18, the committed size is 14. -/
theorem gesture_end_commit (n : ℕ) (s : St) (nd : NodeState)
    (oS oX oY bw bd newSize : ℚ)
    (hpf : s.pendingFlag = true) (hn : s.node = some nd)
    (hst : s.pendingOriginal = some (some oS, some oX, some oY))
    (hbb : getBoundingBox nd = some (bw, bd))
    (hns : newSize = max bw bd - 2 * pyOr s.config.baseSize oS) :
    (newSize ≤ 0 →
      (run (n + 1) .toolOperationStopped s).writes = s.writes ∧
      (run (n + 1) .toolOperationStopped s).pendingFlag = false ∧
      (run (n + 1) .toolOperationStopped s).pendingOriginal = none) ∧
    (0 < newSize →
      (run (n + 1) .toolOperationStopped s).writes = s.writes ++
        [(Key.primeTowerSize, newSize),
         (Key.primeTowerPositionX, (commitCorner oS oX oY newSize (machineOf s)).1),
         (Key.primeTowerPositionY, (commitCorner oS oX oY newSize (machineOf s)).2)] ∧
      centerFromConfig newSize (commitCorner oS oX oY newSize (machineOf s)).1
        (commitCorner oS oX oY newSize (machineOf s)).2 (machineOf s)
        = centerFromConfig oS oX oY (machineOf s) ∧
      (run (n + 1) .toolOperationStopped s).node.map NodeState.scale
        = some ⟨1, 1, 1⟩ ∧
      (run (n + 1) .toolOperationStopped s).pendingFlag = false ∧
      (run (n + 1) .toolOperationStopped s).pendingOriginal = none) :=
  toolStopped_commit n s nd oS oX oY bw bd newSize hpf hn hst hbb hns

/-- C1 amended witness: scenario C.  Original settings (10, 110, 90),
configured base margin 2 (present and non-zero, so the effective margin is
2), observed bounding footprint 18: the committed size is 14, the three
settings are written in one call, the center is preserved and the scale ends
at 1. -/
theorem gesture_end_commit_witness :
    (0 : ℚ) < 14 ∧
    pyOr pendingState.config.baseSize 10 = 2 ∧
    commitCorner 10 110 90 14 (machineOf pendingState) = (112, 88) ∧
    (run 9 .toolOperationStopped pendingState).writes =
      pendingState.writes ++
        [(Key.primeTowerSize, 14),
         (Key.primeTowerPositionX, (commitCorner 10 110 90 14 (machineOf pendingState)).1),
         (Key.primeTowerPositionY, (commitCorner 10 110 90 14 (machineOf pendingState)).2)] ∧
    centerFromConfig 14 (commitCorner 10 110 90 14 (machineOf pendingState)).1
      (commitCorner 10 110 90 14 (machineOf pendingState)).2 (machineOf pendingState)
      = centerFromConfig 10 110 90 (machineOf pendingState) ∧
    (run 9 .toolOperationStopped pendingState).node.map NodeState.scale
      = some ⟨1, 1, 1⟩ ∧
    (run 9 .toolOperationStopped pendingState).pendingFlag = false := by
  have h := (gesture_end_commit 8 pendingState pendingNode 10 110 90 18 18 14
    rfl rfl rfl
    (by norm_num [getBoundingBox, pendingNode, maxMeshRadius])
    (by norm_num [pendingState, pyOr])).2
    (by norm_num)
  refine ⟨by norm_num, by norm_num [pendingState, pyOr], ?_,
    h.1, h.2.1, h.2.2.1, h.2.2.2.1⟩
  norm_num [commitCorner, machineOf, pendingState, Prod.ext_iff]
